import Mathlib

/-!
Shallow embedding of the browser client of the flashcard study tool
(src/frontend/app.js and its duplicate src/unnamed/part_000).

Conventions of the embedding:
* DOM input fields and the module-level globals that the review and
  dialogue operations touch are gathered in one record `St`.
* The network is explicit: every `fetch` performed through the `api`
  helper is recorded as a `Request`, and each operation receives the
  decoded backend response of each call it makes as an argument of type
  `Except String T` (`Except.error msg` models the `Error` the `api`
  helper throws on a non-success response, or a rejected fetch).
* An operation returns an `Outcome`: the state after the run, the list
  of requests dispatched (in dispatch order, including a request whose
  response was an error), and the error that propagated out, if any.
* JavaScript string falsiness is modelled by comparison with `""`;
  `null`/absent values are modelled with `Option`, and the numeric
  coercion `Number(x || 0)` of the card-id dataset slot is modelled by
  `Option.getD 0`.
* Environment-defined date rendering (`toLocaleString`) is modelled by
  an uninterpreted tagging function; DOM focus/scroll calls, which
  carry no state the program later reads, are not modelled.
-/

namespace StudyTool

/-- Speaker of one transcript turn rendered into the chat box. -/
inductive Speaker
  | gemini
  | you
deriving DecidableEq

/-- One transcript turn of the sidekick chat box. -/
structure Turn where
  speaker : Speaker
  text : String
deriving DecidableEq

/-- Request bodies the client serialises with JSON.stringify (or, for the
PDF upload, a multipart form). One constructor per object literal shape in
the source. -/
inductive ReqBody
  | deckNew (name : String)
  | cardNew (deck_id : Nat) (tag : String) (question : String) (answer : String)
  | reviewSubmit (card_id : Nat) (result : String)
  | socraticStart (topic : String)
  | socraticReply (session_id : String) (answer : String)
  | pdfForm (file : String)
deriving DecidableEq

/-- One dispatched fetch. The URL handed to fetch is `base ++ path`; the
two components are recorded separately because the two source copies
differ exactly in the base constant. -/
structure Request where
  base : String
  path : String
  method : String
  body : Option ReqBody
deriving DecidableEq

/-- Card payload as consumed by loadNext and refreshCards. `due_at`
models the nullable timestamp with `""` for null (both are falsy where
the source tests `c.due_at ?`); `last_result` models `c.last_result ?? ""`
with an `Option`. -/
structure Card where
  id : Nat
  question : String
  answer : String
  tag : String
  right_count : Int
  wrong_count : Int
  due_at : String
  last_result : Option String
deriving DecidableEq

/-- Deck payload of GET /decks. -/
structure Deck where
  id : Nat
  name : String
deriving DecidableEq

/-- Bucket counts of GET /reflect/stats. -/
structure Buckets where
  red_hard : Int
  orange_medium : Int
  green_easy : Int
  gray_never : Int
deriving DecidableEq

/-- Stats payload of GET /reflect/stats. -/
structure Stats where
  total : Int
  buckets : Buckets
deriving DecidableEq

/-- Response payload of POST /socratic/start. -/
structure StartResp where
  session_id : String
  question : String
deriving DecidableEq

/-- Response payload of POST /socratic/reply. Fields the backend omits
on a given shape are modelled as `""` (which is exactly what the falsy
test `res.title ||` distinguishes). -/
structure ReplyResp where
  done : Bool
  question : String
  content : String
  title : String
deriving DecidableEq

/-- One question/answer pair of the PDF ingestion response. -/
structure QA where
  q : String
  a : String
deriving DecidableEq

/-- One rendered row of the cards table, as refreshCards builds it. -/
structure Row where
  className : String
  tag : String
  question : String
  answer : String
  lastResult : String
  rightCount : Int
  wrongCount : Int
  due : String
deriving DecidableEq

/-- Client state: the DOM fields and module globals the operations read
and write. `reviewQCardId` is the `dataset.cardId` slot (`none` models
the empty string it is reset to); `socSession` is the SOC_SESSION
module global (`none` models null). -/
structure St where
  deckSelectValue : Nat
  deckOptions : List (Nat × String)
  deckNameValue : String
  tagValue : String
  questionValue : String
  answerValue : String
  tagFilterValue : String
  reviewQText : String
  reviewQCardId : Option Nat
  reviewAText : String
  reviewAHidden : Bool
  cardsTbody : List Row
  statsHtml : String
  pdfFile : Option String
  qaList : List QA
  socSession : Option String
  sidekickTopicValue : String
  sidekickTitleValue : String
  sidekickOutputValue : String
  chatBox : List Turn
  chatInputValue : String
deriving DecidableEq

/-- Result of running one operation: final state, the requests dispatched
in order, and the error that propagated to the caller, if any. -/
structure Outcome where
  dom : St
  requests : List Request
  err : Option String
deriving DecidableEq

/-- Sequencing of awaited calls: a propagating error aborts the rest of
the operation. -/
def Outcome.andThen (o : Outcome) (f : St → Outcome) : Outcome :=
  match o.err with
  | some _ => o
  | none =>
    let o2 := f o.dom
    ⟨o2.dom, o.requests ++ o2.requests, o2.err⟩

/-- Sequencing of fire-and-forget calls (invoked without await): the
callee still runs and mutates state, but its rejection is unhandled and
never propagates to the caller. -/
def Outcome.spawn (o : Outcome) (f : St → Outcome) : Outcome :=
  match o.err with
  | some _ => o
  | none =>
    let o2 := f o.dom
    ⟨o2.dom, o.requests ++ o2.requests, none⟩

/-- Boolean substring test on character lists, used to model
`String.includes`. -/
def listIsInfix (pat : List Char) : List Char → Bool
  | [] => decide (pat = [])
  | c :: rest => pat.isPrefixOf (c :: rest) || listIsInfix pat rest

/-- Models `res.headers.get("content-type")?.includes("application/json")`:
false when the header is absent (undefined is falsy). -/
def ctIncludesJson : Option String → Bool
  | none => false
  | some ct => listIsInfix "application/json".toList ct.toList

/-- Models the JavaScript `String.prototype.trim()`: strip leading and
trailing whitespace. Defined over the character list so that it is
kernel-computable. -/
def jsTrim (s : String) : String :=
  ⟨((s.data.dropWhile Char.isWhitespace).reverse.dropWhile Char.isWhitespace).reverse⟩

/-- Models `new URLSearchParams(obj).toString()` on the small literal
objects the source builds (percent-encoding is irrelevant to every
property studied here and is not modelled). -/
def params (ps : List (String × String)) : String :=
  String.intercalate "&" (ps.map fun p => p.1 ++ "=" ++ p.2)

/-- Models the environment-defined `new Date(x).toLocaleString()` as an
uninterpreted injective tagging of its input. -/
def toLocaleString (s : String) : String :=
  "[locale]" ++ s

/-- Raw fetch response as the `api` helper inspects it: the status flag,
the content-type header, the body text, and the structured parse of the
body (`res.json()`), kept abstract in the payload type. -/
structure FetchResponse (α : Type) where
  ok : Bool
  contentType : Option String
  bodyText : String
  bodyJson : α

/-- Value the `api` helper resolves with: the structured parse or the
raw body text. -/
inductive ApiResult (α : Type)
  | json (v : α)
  | text (t : String)
deriving DecidableEq

/-- Row classification of refreshCards (src/frontend/app.js lines
121-126 and src/unnamed/part_000 lines 122-127): the `hard`, `medium`,
`easy` flags and the chained conditional that picks the class name. -/
def rowClass (right_count wrong_count : Int) : String :=
  let hard : Bool := decide (wrong_count > right_count)
  let medium : Bool := decide (wrong_count = right_count) && decide (right_count + wrong_count > 0)
  let easy : Bool := decide (right_count > wrong_count)
  if hard then "hard" else if medium then "medium" else if easy then "easy" else ""

/-- Row of the cards table built for one card by refreshCards. -/
def rowOfCard (c : Card) : Row :=
  ⟨rowClass c.right_count c.wrong_count, c.tag, c.question, c.answer,
   c.last_result.getD "", c.right_count, c.wrong_count,
   if c.due_at ≠ "" then toLocaleString (c.due_at ++ "Z") else ""⟩

/-- Stats panel text rendered by refreshStats (HTML boilerplate elided,
the five numbers in source order). -/
def statsText (s : Stats) : String :=
  "Total: " ++ toString s.total ++
  " Red/Hard: " ++ toString s.buckets.red_hard ++
  " Orange/Medium: " ++ toString s.buckets.orange_medium ++
  " Green/Easy: " ++ toString s.buckets.green_easy ++
  " Never Reviewed: " ++ toString s.buckets.gray_never

/-- Message loadNext writes into the question box when nothing is due. -/
def nothingDueMsg : String :=
  "Nothing due yet—nice! Add cards or wait until due."

/-- Closing chat message sendSidekickAnswer appends when the reply
response carries done = true. -/
def doneMsg : String :=
  "Great work! I generated a draft on the left — feel free to edit, then click Post."

namespace App

/-- API base constant of src/frontend/app.js line 1. -/
def API : String := "/api"

/-- The api helper of src/frontend/app.js lines 5-9: non-success throws
an Error carrying the response body text; otherwise the body is parsed
as JSON when the content-type header includes application/json and
returned as raw text otherwise. -/
def api {α : Type} (resp : FetchResponse α) : Except String (ApiResult α) :=
  if resp.ok = false then Except.error resp.bodyText
  else if ctIncludesJson resp.contentType then Except.ok (ApiResult.json resp.bodyJson)
  else Except.ok (ApiResult.text resp.bodyText)

/-- Request dispatched by loadNext, with the query string URLSearchParams
builds from deck_id and the optional trimmed tag filter. -/
def nextReq (s : St) : Request :=
  ⟨API,
   "/review/next?" ++ params ([("deck_id", toString s.deckSelectValue)] ++
     (if jsTrim s.tagFilterValue = "" then [] else [("tag", jsTrim s.tagFilterValue)])),
   "GET", none⟩

/-- Request dispatched by refreshCards (deck_id omitted when falsy). -/
def cardsReq (s : St) : Request :=
  ⟨API,
   "/cards?" ++ params ((if s.deckSelectValue = 0 then [] else [("deck_id", toString s.deckSelectValue)]) ++
     (if jsTrim s.tagFilterValue = "" then [] else [("tag", jsTrim s.tagFilterValue)])),
   "GET", none⟩

/-- Request dispatched by refreshStats (deck_id omitted when falsy). -/
def statsReq (s : St) : Request :=
  ⟨API,
   "/reflect/stats?" ++ params (if s.deckSelectValue = 0 then [] else [("deck_id", toString s.deckSelectValue)]),
   "GET", none⟩

/-- loadNext of src/frontend/app.js lines 52-69: queries /review/next;
on a null response writes the nothing-due message, hides and clears the
answer box and empties the card-id slot; on a card response shows the
question, stores the answer hidden and records the card id. -/
def loadNext (rNext : Except String (Option Card)) (s : St) : Outcome :=
  match rNext with
  | Except.error e => ⟨s, [nextReq s], some e⟩
  | Except.ok none =>
    ⟨{ s with
        reviewQText := nothingDueMsg, reviewAHidden := true,
        reviewAText := "", reviewQCardId := none },
     [nextReq s], none⟩
  | Except.ok (some card) =>
    ⟨{ s with
        reviewQText := card.question, reviewAText := card.answer,
        reviewAHidden := true, reviewQCardId := some card.id },
     [nextReq s], none⟩

/-- refreshCards of src/frontend/app.js lines 108-131: queries /cards
and rebuilds the table body, classifying each row. -/
def refreshCards (rCards : Except String (List Card)) (s : St) : Outcome :=
  match rCards with
  | Except.error e => ⟨s, [cardsReq s], some e⟩
  | Except.ok cards => ⟨{ s with cardsTbody := cards.map rowOfCard }, [cardsReq s], none⟩

/-- refreshStats of src/frontend/app.js lines 133-144: queries
/reflect/stats and rewrites the stats panel. -/
def refreshStats (rStats : Except String Stats) (s : St) : Outcome :=
  match rStats with
  | Except.error e => ⟨s, [statsReq s], some e⟩
  | Except.ok st => ⟨{ s with statsHtml := statsText st }, [statsReq s], none⟩

/-- submitResult of src/frontend/app.js lines 71-82: a falsy card id is
a no-op before any network call; otherwise POST /review/submit with the
card id and result, then (awaited) loadNext, refreshCards,
refreshStats. -/
def submitResult (result : String) (rSubmit : Except String Unit)
    (rNext : Except String (Option Card)) (rCards : Except String (List Card))
    (rStats : Except String Stats) (s : St) : Outcome :=
  let cardId : Nat := s.reviewQCardId.getD 0
  if cardId = 0 then ⟨s, [], none⟩
  else
    let req : Request := ⟨API, "/review/submit", "POST", some (ReqBody.reviewSubmit cardId result)⟩
    match rSubmit with
    | Except.error e => ⟨s, [req], some e⟩
    | Except.ok _ =>
      ((Outcome.mk s [req] none).andThen (loadNext rNext)).andThen
        (refreshCards rCards) |>.andThen (refreshStats rStats)

/-- showAnswer of src/frontend/app.js line 84: unhides the answer box. -/
def showAnswer (s : St) : St :=
  { s with reviewAHidden := false }

/-- refreshDecks of src/frontend/app.js lines 11-22: queries /decks,
rebuilds the deck options, and when the list is non-empty fires
refreshCards and refreshStats without awaiting them. -/
def refreshDecks (rDecks : Except String (List Deck)) (rCards : Except String (List Card))
    (rStats : Except String Stats) (s : St) : Outcome :=
  match rDecks with
  | Except.error e => ⟨s, [⟨API, "/decks", "GET", none⟩], some e⟩
  | Except.ok decks =>
    let s1 := { s with deckOptions := decks.map fun d => (d.id, d.name) }
    if decks.isEmpty then ⟨s1, [⟨API, "/decks", "GET", none⟩], none⟩
    else
      ((Outcome.mk s1 [⟨API, "/decks", "GET", none⟩] none).spawn (refreshCards rCards)).spawn
        (refreshStats rStats)

/-- createDeck of src/frontend/app.js lines 24-34: an empty trimmed name
is a no-op; otherwise POST /decks, clear the name field and fire
refreshDecks without awaiting it. -/
def createDeck (rCreate : Except String Unit) (rDecks : Except String (List Deck))
    (rCards : Except String (List Card)) (rStats : Except String Stats) (s : St) : Outcome :=
  let name := jsTrim s.deckNameValue
  if name = "" then ⟨s, [], none⟩
  else
    let req : Request := ⟨API, "/decks", "POST", some (ReqBody.deckNew name)⟩
    match rCreate with
    | Except.error e => ⟨s, [req], some e⟩
    | Except.ok _ =>
      (Outcome.mk { s with deckNameValue := "" } [req] none).spawn
        (refreshDecks rDecks rCards rStats)

/-- addCard of src/frontend/app.js lines 36-50: a falsy deck id, question
or answer is a no-op; otherwise POST /cards (tag defaulting to general),
clear the question and answer fields and fire refreshCards and
refreshStats without awaiting them. -/
def addCard (rAdd : Except String Unit) (rCards : Except String (List Card))
    (rStats : Except String Stats) (s : St) : Outcome :=
  let deck_id := s.deckSelectValue
  let tag := if jsTrim s.tagValue = "" then "general" else jsTrim s.tagValue
  let question := jsTrim s.questionValue
  let answer := jsTrim s.answerValue
  if deck_id = 0 ∨ question = "" ∨ answer = "" then ⟨s, [], none⟩
  else
    let req : Request := ⟨API, "/cards", "POST", some (ReqBody.cardNew deck_id tag question answer)⟩
    match rAdd with
    | Except.error e => ⟨s, [req], some e⟩
    | Except.ok _ =>
      ((Outcome.mk { s with questionValue := "", answerValue := "" } [req] none).spawn
        (refreshCards rCards)).spawn (refreshStats rStats)

/-- ingestPdf of src/frontend/app.js lines 86-112: no selected file is a
no-op; otherwise POST the file as multipart to /ingest/pdf (a bare fetch
that never inspects the status flag) and render the returned
question/answer pairs. An error models a rejected fetch or a JSON parse
failure. The per-item add-card click handlers are not part of this
operation's run. -/
def ingestPdf (rIngest : Except String (List QA)) (s : St) : Outcome :=
  match s.pdfFile with
  | none => ⟨s, [], none⟩
  | some f =>
    let req : Request := ⟨API, "/ingest/pdf", "POST", some (ReqBody.pdfForm f)⟩
    match rIngest with
    | Except.error e => ⟨s, [req], some e⟩
    | Except.ok data => ⟨{ s with qaList := data }, [req], none⟩

/-- startSidekick of src/frontend/app.js lines 175-188: an empty trimmed
topic is a no-op; otherwise POST /socratic/start, store the session id,
set the title to the topic, clear the draft output and reset the chat
box to exactly the backend's opening question. -/
def startSidekick (rStart : Except String StartResp) (s : St) : Outcome :=
  let topic := jsTrim s.sidekickTopicValue
  if topic = "" then ⟨s, [], none⟩
  else
    let req : Request := ⟨API, "/socratic/start", "POST", some (ReqBody.socraticStart topic)⟩
    match rStart with
    | Except.error e => ⟨s, [req], some e⟩
    | Except.ok res =>
      ⟨{ s with
          socSession := some res.session_id,
          sidekickTitleValue := topic,
          sidekickOutputValue := "",
          chatBox := [⟨Speaker.gemini, res.question⟩] },
       [req], none⟩

/-- sendSidekickAnswer of src/frontend/app.js lines 190-209: a null
session or empty trimmed input is a no-op; otherwise the user's turn is
appended to the chat box and the input cleared, then POST
/socratic/reply; on done = false the next question is appended; on
done = true the draft content is stored, the title filled through the
falsy-fallback chain, and the closing message appended. -/
def sendSidekickAnswer (rReply : Except String ReplyResp) (s : St) : Outcome :=
  match s.socSession with
  | none => ⟨s, [], none⟩
  | some sid =>
    let ans := jsTrim s.chatInputValue
    if ans = "" then ⟨s, [], none⟩
    else
      let s1 := { s with
        chatBox := s.chatBox ++ [⟨Speaker.you, ans⟩], chatInputValue := "" }
      let req : Request := ⟨API, "/socratic/reply", "POST", some (ReqBody.socraticReply sid ans)⟩
      match rReply with
      | Except.error e => ⟨s1, [req], some e⟩
      | Except.ok res =>
        if res.done = false then
          ⟨{ s1 with chatBox := s1.chatBox ++ [⟨Speaker.gemini, res.question⟩] }, [req], none⟩
        else
          ⟨{ s1 with
              sidekickOutputValue := res.content,
              sidekickTitleValue :=
                if res.title ≠ "" then res.title
                else if s1.sidekickTitleValue ≠ "" then s1.sidekickTitleValue
                else "My Learning Note",
              chatBox := s1.chatBox ++ [⟨Speaker.gemini, doneMsg⟩] },
           [req], none⟩

end App

namespace Part000

/-- API base constant of src/unnamed/part_000 line 1. -/
def API : String := "http://localhost:8000"

/-- The api helper of src/unnamed/part_000 lines 6-10, body identical to
the app.js copy. -/
def api {α : Type} (resp : FetchResponse α) : Except String (ApiResult α) :=
  if resp.ok = false then Except.error resp.bodyText
  else if ctIncludesJson resp.contentType then Except.ok (ApiResult.json resp.bodyJson)
  else Except.ok (ApiResult.text resp.bodyText)

/-- Request dispatched by the part_000 loadNext. -/
def nextReq (s : St) : Request :=
  ⟨API,
   "/review/next?" ++ params ([("deck_id", toString s.deckSelectValue)] ++
     (if jsTrim s.tagFilterValue = "" then [] else [("tag", jsTrim s.tagFilterValue)])),
   "GET", none⟩

/-- Request dispatched by the part_000 refreshCards. -/
def cardsReq (s : St) : Request :=
  ⟨API,
   "/cards?" ++ params ((if s.deckSelectValue = 0 then [] else [("deck_id", toString s.deckSelectValue)]) ++
     (if jsTrim s.tagFilterValue = "" then [] else [("tag", jsTrim s.tagFilterValue)])),
   "GET", none⟩

/-- Request dispatched by the part_000 refreshStats. -/
def statsReq (s : St) : Request :=
  ⟨API,
   "/reflect/stats?" ++ params (if s.deckSelectValue = 0 then [] else [("deck_id", toString s.deckSelectValue)]),
   "GET", none⟩

/-- loadNext of src/unnamed/part_000 lines 53-70, body identical to the
app.js copy. -/
def loadNext (rNext : Except String (Option Card)) (s : St) : Outcome :=
  match rNext with
  | Except.error e => ⟨s, [nextReq s], some e⟩
  | Except.ok none =>
    ⟨{ s with
        reviewQText := nothingDueMsg, reviewAHidden := true,
        reviewAText := "", reviewQCardId := none },
     [nextReq s], none⟩
  | Except.ok (some card) =>
    ⟨{ s with
        reviewQText := card.question, reviewAText := card.answer,
        reviewAHidden := true, reviewQCardId := some card.id },
     [nextReq s], none⟩

/-- refreshCards of src/unnamed/part_000 lines 109-132, body identical
to the app.js copy. -/
def refreshCards (rCards : Except String (List Card)) (s : St) : Outcome :=
  match rCards with
  | Except.error e => ⟨s, [cardsReq s], some e⟩
  | Except.ok cards => ⟨{ s with cardsTbody := cards.map rowOfCard }, [cardsReq s], none⟩

/-- refreshStats of src/unnamed/part_000 lines 134-145, body identical
to the app.js copy. -/
def refreshStats (rStats : Except String Stats) (s : St) : Outcome :=
  match rStats with
  | Except.error e => ⟨s, [statsReq s], some e⟩
  | Except.ok st => ⟨{ s with statsHtml := statsText st }, [statsReq s], none⟩

/-- submitResult of src/unnamed/part_000 lines 72-83, body identical to
the app.js copy. -/
def submitResult (result : String) (rSubmit : Except String Unit)
    (rNext : Except String (Option Card)) (rCards : Except String (List Card))
    (rStats : Except String Stats) (s : St) : Outcome :=
  let cardId : Nat := s.reviewQCardId.getD 0
  if cardId = 0 then ⟨s, [], none⟩
  else
    let req : Request := ⟨API, "/review/submit", "POST", some (ReqBody.reviewSubmit cardId result)⟩
    match rSubmit with
    | Except.error e => ⟨s, [req], some e⟩
    | Except.ok _ =>
      ((Outcome.mk s [req] none).andThen (loadNext rNext)).andThen
        (refreshCards rCards) |>.andThen (refreshStats rStats)

/-- showAnswer of src/unnamed/part_000 line 85, body identical to the
app.js copy. -/
def showAnswer (s : St) : St :=
  { s with reviewAHidden := false }

/-- refreshDecks of src/unnamed/part_000 lines 12-23, body identical to
the app.js copy. -/
def refreshDecks (rDecks : Except String (List Deck)) (rCards : Except String (List Card))
    (rStats : Except String Stats) (s : St) : Outcome :=
  match rDecks with
  | Except.error e => ⟨s, [⟨API, "/decks", "GET", none⟩], some e⟩
  | Except.ok decks =>
    let s1 := { s with deckOptions := decks.map fun d => (d.id, d.name) }
    if decks.isEmpty then ⟨s1, [⟨API, "/decks", "GET", none⟩], none⟩
    else
      ((Outcome.mk s1 [⟨API, "/decks", "GET", none⟩] none).spawn (refreshCards rCards)).spawn
        (refreshStats rStats)

/-- createDeck of src/unnamed/part_000 lines 25-35, body identical to
the app.js copy. -/
def createDeck (rCreate : Except String Unit) (rDecks : Except String (List Deck))
    (rCards : Except String (List Card)) (rStats : Except String Stats) (s : St) : Outcome :=
  let name := jsTrim s.deckNameValue
  if name = "" then ⟨s, [], none⟩
  else
    let req : Request := ⟨API, "/decks", "POST", some (ReqBody.deckNew name)⟩
    match rCreate with
    | Except.error e => ⟨s, [req], some e⟩
    | Except.ok _ =>
      (Outcome.mk { s with deckNameValue := "" } [req] none).spawn
        (refreshDecks rDecks rCards rStats)

/-- addCard of src/unnamed/part_000 lines 37-51, body identical to the
app.js copy. -/
def addCard (rAdd : Except String Unit) (rCards : Except String (List Card))
    (rStats : Except String Stats) (s : St) : Outcome :=
  let deck_id := s.deckSelectValue
  let tag := if jsTrim s.tagValue = "" then "general" else jsTrim s.tagValue
  let question := jsTrim s.questionValue
  let answer := jsTrim s.answerValue
  if deck_id = 0 ∨ question = "" ∨ answer = "" then ⟨s, [], none⟩
  else
    let req : Request := ⟨API, "/cards", "POST", some (ReqBody.cardNew deck_id tag question answer)⟩
    match rAdd with
    | Except.error e => ⟨s, [req], some e⟩
    | Except.ok _ =>
      ((Outcome.mk { s with questionValue := "", answerValue := "" } [req] none).spawn
        (refreshCards rCards)).spawn (refreshStats rStats)

/-- ingestPdf of src/unnamed/part_000 lines 87-113, body identical to
the app.js copy. -/
def ingestPdf (rIngest : Except String (List QA)) (s : St) : Outcome :=
  match s.pdfFile with
  | none => ⟨s, [], none⟩
  | some f =>
    let req : Request := ⟨API, "/ingest/pdf", "POST", some (ReqBody.pdfForm f)⟩
    match rIngest with
    | Except.error e => ⟨s, [req], some e⟩
    | Except.ok data => ⟨{ s with qaList := data }, [req], none⟩

end Part000

/-! Concrete states used to instantiate the theorems below. -/

/-- Baseline client state: deck 1 selected, everything else empty, no
card loaded, no dialogue session. -/
def st0 : St :=
  ⟨1, [], "", "", "", "", "", "", none, "", true, [], "", none, [], none, "", "", "", [], ""⟩

/-- C3: when /review/next returns nothing due, loadNext moves the review
session to the explicit empty state — no stored card identifier, answer
hidden — and no error propagates; when it returns a card, the session is
loaded with that card's identifier stored and the answer hidden. -/
theorem loadNext_empty_or_loaded (s : St) :
    ((App.loadNext (Except.ok none) s).dom.reviewQCardId = none
      ∧ (App.loadNext (Except.ok none) s).dom.reviewAHidden = true
      ∧ (App.loadNext (Except.ok none) s).err = none)
  ∧ ∀ c : Card,
      ((App.loadNext (Except.ok (some c)) s).dom.reviewQCardId = some c.id
        ∧ (App.loadNext (Except.ok (some c)) s).dom.reviewAHidden = true
        ∧ (App.loadNext (Except.ok (some c)) s).err = none) :=
  ⟨⟨rfl, rfl, rfl⟩, fun _ => ⟨rfl, rfl, rfl⟩⟩

/-- C6: with no loaded card identifier, submitResult dispatches no
request and leaves the whole client state unchanged. -/
theorem submit_noop_when_empty (result : String) (rSubmit : Except String Unit)
    (rNext : Except String (Option Card)) (rCards : Except String (List Card))
    (rStats : Except String Stats) (s : St) (h : s.reviewQCardId = none) :
    App.submitResult result rSubmit rNext rCards rStats s = ⟨s, [], none⟩ := by
  have h0 : s.reviewQCardId.getD 0 = 0 := by rw [h]; rfl
  unfold App.submitResult
  simp [h0]

/-- Witness for submit_noop_when_empty at the baseline empty state. -/
theorem submit_noop_when_empty_w :
    st0.reviewQCardId = none
  ∧ App.submitResult "hard" (Except.ok ()) (Except.ok none) (Except.ok [])
      (Except.ok ⟨0, ⟨0, 0, 0, 0⟩⟩) st0 = ⟨st0, [], none⟩ :=
  ⟨rfl, submit_noop_when_empty "hard" (Except.ok ()) (Except.ok none) (Except.ok [])
    (Except.ok ⟨0, ⟨0, 0, 0, 0⟩⟩) st0 rfl⟩

/-- C7: the api helper returns the structured parse of the body when the
declared content type includes application/json, the raw body text
otherwise, and fails on a non-success response with an error whose
message is the response body text. -/
theorem api_contract {α : Type} (resp : FetchResponse α) :
    (resp.ok = false → App.api resp = Except.error resp.bodyText)
  ∧ (resp.ok = true → ctIncludesJson resp.contentType = true →
      App.api resp = Except.ok (ApiResult.json resp.bodyJson))
  ∧ (resp.ok = true → ctIncludesJson resp.contentType = false →
      App.api resp = Except.ok (ApiResult.text resp.bodyText)) := by
  refine ⟨fun h => ?_, fun h hj => ?_, fun h hj => ?_⟩ <;>
    simp_all [App.api]

/-- Witness for api_contract: a failing response surfaces its body text,
a JSON success parses, a plain-text success returns the raw body. -/
theorem api_contract_w :
    App.api (FetchResponse.mk false none "oops" (0 : Nat)) = Except.error "oops"
  ∧ App.api (FetchResponse.mk true (some "application/json; charset=utf-8") "[1]" (7 : Nat))
      = Except.ok (ApiResult.json 7)
  ∧ App.api (FetchResponse.mk true (some "text/plain") "hello" (0 : Nat))
      = Except.ok (ApiResult.text "hello") :=
  ⟨(api_contract _).1 rfl,
   (api_contract _).2.1 rfl (by decide),
   (api_contract _).2.2 rfl (by decide)⟩

/-- C8: startSidekick performs no backend call when the trimmed topic is
empty; on a non-empty topic with a successful response it replaces the
dialogue session wholesale — new token stored, title set to the topic,
draft output cleared, and the transcript reset to exactly the backend's
opening question, discarding any prior transcript. -/
theorem start_guard_and_reset (s : St) :
    (jsTrim s.sidekickTopicValue = "" →
      ∀ rStart : Except String StartResp, App.startSidekick rStart s = ⟨s, [], none⟩)
  ∧ (jsTrim s.sidekickTopicValue ≠ "" → ∀ res : StartResp,
      App.startSidekick (Except.ok res) s =
        ⟨{ s with
            socSession := some res.session_id,
            sidekickTitleValue := jsTrim s.sidekickTopicValue,
            sidekickOutputValue := "",
            chatBox := [⟨Speaker.gemini, res.question⟩] },
         [⟨App.API, "/socratic/start", "POST",
            some (ReqBody.socraticStart (jsTrim s.sidekickTopicValue))⟩],
         none⟩) := by
  constructor
  · intro h rStart
    unfold App.startSidekick
    simp [h]
  · intro h res
    unfold App.startSidekick
    simp [h]

/-- State with a topic typed into the sidekick box and a stale
transcript left over from an earlier dialogue. -/
def stTopic : St :=
  { st0 with sidekickTopicValue := "Photosynthesis", chatBox := [⟨Speaker.gemini, "old"⟩] }

/-- Witness for start_guard_and_reset: starting on a state with a stale
transcript resets it to exactly the opening question. -/
theorem start_guard_and_reset_w :
    jsTrim stTopic.sidekickTopicValue ≠ ""
  ∧ App.startSidekick (Except.ok ⟨"sess1", "Q1"⟩) stTopic =
      ⟨{ stTopic with
          socSession := some "sess1",
          sidekickTitleValue := jsTrim stTopic.sidekickTopicValue,
          sidekickOutputValue := "",
          chatBox := [⟨Speaker.gemini, "Q1"⟩] },
       [⟨App.API, "/socratic/start", "POST",
          some (ReqBody.socraticStart (jsTrim stTopic.sidekickTopicValue))⟩],
       none⟩ :=
  ⟨by decide, (start_guard_and_reset stTopic).2 (by decide) ⟨"sess1", "Q1"⟩⟩

/-- C9: for non-negative counters the row classification is hard exactly
when wrong exceeds right, medium exactly when they are equal and their
sum is positive, easy exactly when right exceeds wrong, and unclassified
exactly when both are zero; the four outcomes are mutually exclusive and
exhaustive. -/
theorem rowClass_partition (r w : Int) (hr : 0 ≤ r) (hw : 0 ≤ w) :
    (rowClass r w = "hard" ↔ w > r)
  ∧ (rowClass r w = "medium" ↔ (w = r ∧ r + w > 0))
  ∧ (rowClass r w = "easy" ↔ r > w)
  ∧ (rowClass r w = "" ↔ (r = 0 ∧ w = 0))
  ∧ (rowClass r w = "hard" ∨ rowClass r w = "medium"
      ∨ rowClass r w = "easy" ∨ rowClass r w = "") := by
  rcases lt_trichotomy w r with h | h | h
  · have hv : rowClass r w = "easy" := by
      unfold rowClass
      have h1 : ¬(w > r) := by omega
      have h2 : ¬(w = r) := by omega
      simp [h1, h2, h]
    rw [hv]
    refine ⟨by simp; omega, ?_, by simp [h], by simp; omega, by simp⟩
    simp only [show ("easy" = "medium") = False by simp, false_iff]
    omega
  · by_cases hz : r + w > 0
    · have hv : rowClass r w = "medium" := by
        unfold rowClass
        have h1 : ¬(w > r) := by omega
        simp [h1, h, hz]
        omega
      rw [hv]
      refine ⟨by simp; omega, by simp; omega, by simp; omega, by simp; omega, by simp⟩
    · have hr0 : r = 0 := by omega
      have hw0 : w = 0 := by omega
      subst hr0
      subst hw0
      exact ⟨by decide, by decide, by decide, by decide, by decide⟩
  · have hv : rowClass r w = "hard" := by
      unfold rowClass
      simp [h]
    rw [hv]
    refine ⟨by simp; omega, ?_, by simp; omega, by simp; omega, by simp⟩
    simp only [show ("hard" = "medium") = False by simp, false_iff]
    omega

/-- Witness for rowClass_partition at counters 1 right, 2 wrong. -/
theorem rowClass_partition_w :
    (0 : Int) ≤ 1 ∧ (0 : Int) ≤ 2
  ∧ (rowClass 1 2 = "hard" ↔ (2 : Int) > 1) :=
  ⟨by decide, by decide, (rowClass_partition 1 2 (by decide) (by decide)).1⟩

/-- C5: from a loaded review session, reveal followed by submit and
submit alone produce identical outcomes, and when the re-query finds
nothing due both leave the session in the empty state — answer
visibility neither gates nor alters grading. -/
theorem reveal_independent (result : String) (rCards : Except String (List Card))
    (rStats : Except String Stats) (s : St) (id : Nat)
    (hid : s.reviewQCardId = some id) (hnz : id ≠ 0) :
    App.submitResult result (Except.ok ()) (Except.ok none) rCards rStats (App.showAnswer s)
      = App.submitResult result (Except.ok ()) (Except.ok none) rCards rStats s
  ∧ (App.submitResult result (Except.ok ()) (Except.ok none) rCards rStats s).dom.reviewQCardId
      = none
  ∧ (App.submitResult result (Except.ok ()) (Except.ok none) rCards rStats s).dom.reviewAHidden
      = true := by
  have h0 : (App.showAnswer s).reviewQCardId.getD 0 = id := by
    simp [App.showAnswer, hid]
  have h1 : s.reviewQCardId.getD 0 = id := by rw [hid]; rfl
  refine ⟨?_, ?_, ?_⟩ <;>
    simp only [App.submitResult] <;>
    simp only [h0, h1, if_neg hnz] <;>
    rcases rCards with e | cards <;> rcases rStats with e2 | stats <;> rfl

/-- Loaded review state used to instantiate the review theorems. -/
def stLoaded : St :=
  { st0 with reviewQCardId := some 42, reviewQText := "q42", reviewAText := "a42" }

/-- Witness for reveal_independent at the loaded state with card 42. -/
theorem reveal_independent_w :
    stLoaded.reviewQCardId = some 42 ∧ (42 : Nat) ≠ 0
  ∧ App.submitResult "hard" (Except.ok ()) (Except.ok none) (Except.ok [])
      (Except.ok ⟨0, ⟨0, 0, 0, 0⟩⟩) (App.showAnswer stLoaded)
    = App.submitResult "hard" (Except.ok ()) (Except.ok none) (Except.ok [])
      (Except.ok ⟨0, ⟨0, 0, 0, 0⟩⟩) stLoaded :=
  ⟨rfl, by decide,
   (reveal_independent "hard" (Except.ok []) (Except.ok ⟨0, ⟨0, 0, 0, 0⟩⟩) stLoaded 42
      rfl (by decide)).1⟩

/-- C4: from a loaded card id, submitResult dispatches exactly one POST,
namely /review/submit with body card_id and result; when the POST
succeeds, the very next dispatched request is the /review/next re-query,
and once the re-query answers, the stored card identifier is whatever it
returned — the session never keeps the graded card without re-querying. -/
theorem submit_posts_once_then_requeries (result : String) (rSubmit : Except String Unit)
    (rNext : Except String (Option Card)) (rCards : Except String (List Card))
    (rStats : Except String Stats) (s : St) (id : Nat)
    (hid : s.reviewQCardId = some id) (hnz : id ≠ 0) :
    ((App.submitResult result rSubmit rNext rCards rStats s).requests.filter
        (fun q => q.method == "POST")
      = [⟨App.API, "/review/submit", "POST", some (ReqBody.reviewSubmit id result)⟩])
  ∧ (rSubmit = Except.ok () →
      (App.submitResult result rSubmit rNext rCards rStats s).requests.take 2
        = [⟨App.API, "/review/submit", "POST", some (ReqBody.reviewSubmit id result)⟩,
           App.nextReq s])
  ∧ (∀ oc : Option Card, rSubmit = Except.ok () → rNext = Except.ok oc →
      (App.submitResult result rSubmit rNext rCards rStats s).dom.reviewQCardId
        = oc.map Card.id) := by
  have h1 : s.reviewQCardId.getD 0 = id := by rw [hid]; rfl
  refine ⟨?_, ?_, ?_⟩
  · rcases rSubmit with e | u <;> rcases rNext with e2 | (_ | c) <;>
      rcases rCards with e3 | cards <;> rcases rStats with e4 | stats <;>
      · simp only [App.submitResult, h1, if_neg hnz, Outcome.andThen, App.loadNext,
          App.refreshCards, App.refreshStats]
        simp [App.nextReq, App.cardsReq, App.statsReq]
  · intro hok
    subst hok
    rcases rNext with e2 | (_ | c) <;>
      rcases rCards with e3 | cards <;> rcases rStats with e4 | stats <;>
      · simp only [App.submitResult, h1, if_neg hnz, Outcome.andThen, App.loadNext,
          App.refreshCards, App.refreshStats]
        simp
  · intro oc hok hnext
    subst hok
    subst hnext
    rcases oc with _ | c <;>
      rcases rCards with e3 | cards <;> rcases rStats with e4 | stats <;>
      · simp only [App.submitResult, h1, if_neg hnz, Outcome.andThen, App.loadNext,
          App.refreshCards, App.refreshStats]
        simp

/-- Witness for submit_posts_once_then_requeries at the loaded state
with card 42 and result hard. -/
theorem submit_posts_once_then_requeries_w :
    stLoaded.reviewQCardId = some 42 ∧ (42 : Nat) ≠ 0
  ∧ (App.submitResult "hard" (Except.ok ()) (Except.ok none) (Except.ok [])
        (Except.ok ⟨0, ⟨0, 0, 0, 0⟩⟩) stLoaded).requests.filter
        (fun q => q.method == "POST")
      = [⟨App.API, "/review/submit", "POST", some (ReqBody.reviewSubmit 42 "hard")⟩] :=
  ⟨rfl, by decide,
   (submit_posts_once_then_requeries "hard" (Except.ok ()) (Except.ok none) (Except.ok [])
      (Except.ok ⟨0, ⟨0, 0, 0, 0⟩⟩) stLoaded 42 rfl (by decide)).1⟩

/-- Active dialogue state: session token present, text typed into the
chat input, one backend turn in the transcript. -/
def stActive : St :=
  { st0 with
      socSession := some "sess1", chatInputValue := "a",
      chatBox := [⟨Speaker.gemini, "Q1"⟩] }

/-- Reply response that completes the dialogue. -/
def rDone : Except String ReplyResp := Except.ok ⟨true, "", "draft body", "T"⟩

/-- State the spec calls Complete: reached by a reply whose response had
done = true, with fresh text typed into the chat input afterwards. -/
def stComplete : St :=
  { (App.sendSidekickAnswer rDone stActive).dom with chatInputValue := "more" }

/-- C1 counterexample: after a reply whose response had done = true (the
dialogue the spec calls Complete — witnessed by the stored draft), a
further reply still dispatches a backend call: the client never clears
or guards the session token on completion. -/
theorem reply_after_complete_calls_backend :
    (App.sendSidekickAnswer rDone stActive).dom.sidekickOutputValue = "draft body"
  ∧ (App.sendSidekickAnswer rDone stActive).err = none
  ∧ (App.sendSidekickAnswer (Except.ok ⟨false, "Q3", "", ""⟩) stComplete).requests
      = [⟨App.API, "/socratic/reply", "POST", some (ReqBody.socraticReply "sess1" "more")⟩] :=
  ⟨by decide, by decide, by decide⟩

/-- C1 (amended): sendSidekickAnswer performs no backend call when the
session token is absent or the trimmed answer is empty; but whenever a
token is present and the trimmed input non-empty — including after a
completed dialogue — it dispatches exactly the /socratic/reply call. -/
theorem reply_guard (rReply : Except String ReplyResp) (s : St) :
    (s.socSession = none → App.sendSidekickAnswer rReply s = ⟨s, [], none⟩)
  ∧ (jsTrim s.chatInputValue = "" → App.sendSidekickAnswer rReply s = ⟨s, [], none⟩)
  ∧ (∀ sid, s.socSession = some sid → jsTrim s.chatInputValue ≠ "" →
      (App.sendSidekickAnswer rReply s).requests
        = [⟨App.API, "/socratic/reply", "POST",
            some (ReqBody.socraticReply sid (jsTrim s.chatInputValue))⟩]) := by
  refine ⟨fun h => ?_, fun h => ?_, fun sid h hne => ?_⟩
  · unfold App.sendSidekickAnswer
    rw [h]
  · unfold App.sendSidekickAnswer
    cases hs : s.socSession
    · rfl
    · simp [h]
  · unfold App.sendSidekickAnswer
    rw [h]
    rcases rReply with e | res
    · simp [hne]
    · by_cases hd : res.done = false <;> simp [hne, hd]

/-- Witness for reply_guard: with no session token the reply is a local
no-op, and from the active state exactly one reply request goes out. -/
theorem reply_guard_w :
    st0.socSession = none
  ∧ App.sendSidekickAnswer (Except.ok ⟨false, "Q2", "", ""⟩) st0 = ⟨st0, [], none⟩
  ∧ jsTrim stLoaded.chatInputValue = ""
  ∧ App.sendSidekickAnswer (Except.ok ⟨false, "Q2", "", ""⟩) stLoaded = ⟨stLoaded, [], none⟩
  ∧ (stActive.socSession = some "sess1" ∧ jsTrim stActive.chatInputValue ≠ "")
  ∧ (App.sendSidekickAnswer (Except.ok ⟨false, "Q2", "", ""⟩) stActive).requests
      = [⟨App.API, "/socratic/reply", "POST",
          some (ReqBody.socraticReply "sess1" (jsTrim stActive.chatInputValue))⟩] :=
  ⟨rfl,
   (reply_guard (Except.ok ⟨false, "Q2", "", ""⟩) st0).1 rfl,
   rfl,
   (reply_guard (Except.ok ⟨false, "Q2", "", ""⟩) stLoaded).2.1 rfl,
   ⟨rfl, by decide⟩,
   (reply_guard (Except.ok ⟨false, "Q2", "", ""⟩) stActive).2.2 "sess1" rfl (by decide)⟩

/-- Another active dialogue state, used for the atomicity counterexample. -/
def stActive2 : St :=
  { st0 with
      socSession := some "sess9", chatInputValue := "hello",
      chatBox := [⟨Speaker.gemini, "Q1"⟩] }

/-- C2 counterexample: when the /socratic/reply call fails, the state is
not the state before the operation — the user's turn was already
appended to the transcript and the input field cleared before the
network call. -/
theorem reply_error_mutates_state :
    (App.sendSidekickAnswer (Except.error "boom") stActive2).err = some "boom"
  ∧ (App.sendSidekickAnswer (Except.error "boom") stActive2).dom ≠ stActive2 := by
  exact ⟨by decide, by decide⟩

/-- C2 (amended): an API error during loadNext leaves the state
unchanged and surfaces the error; an API error during startSidekick
leaves the state unchanged and, whenever the call was actually
dispatched (non-empty trimmed topic), surfaces the error; submitResult
leaves the state unchanged when its own POST fails and also when the
chained re-query fails, while an error at either later position of the
chain (refreshCards or refreshStats) leaves exactly the state the
completed prefix produced; sendSidekickAnswer has already appended the
user's turn and cleared the input before the call, and exactly those two
changes persist on error, the error still surfacing. -/
theorem api_error_state (e : String) :
    (∀ s : St, (App.loadNext (Except.error e) s).dom = s
      ∧ (App.loadNext (Except.error e) s).err = some e)
  ∧ (∀ result rNext rCards rStats (s : St),
      (App.submitResult result (Except.error e) rNext rCards rStats s).dom = s)
  ∧ (∀ result rCards rStats (s : St),
      (App.submitResult result (Except.ok ()) (Except.error e) rCards rStats s).dom = s)
  ∧ (∀ result oc rStats (s : St) (id : Nat), s.reviewQCardId = some id → id ≠ 0 →
      (App.submitResult result (Except.ok ()) (Except.ok oc) (Except.error e) rStats s).dom
        = (App.loadNext (Except.ok oc) s).dom)
  ∧ (∀ result oc cards (s : St) (id : Nat), s.reviewQCardId = some id → id ≠ 0 →
      (App.submitResult result (Except.ok ()) (Except.ok oc) (Except.ok cards)
          (Except.error e) s).dom
        = (App.refreshCards (Except.ok cards) (App.loadNext (Except.ok oc) s).dom).dom)
  ∧ (∀ s : St, (App.startSidekick (Except.error e) s).dom = s
      ∧ (jsTrim s.sidekickTopicValue ≠ "" →
          (App.startSidekick (Except.error e) s).err = some e))
  ∧ (∀ (s : St) sid, s.socSession = some sid → jsTrim s.chatInputValue ≠ "" →
      (App.sendSidekickAnswer (Except.error e) s).dom
        = { s with
            chatBox := s.chatBox ++ [⟨Speaker.you, jsTrim s.chatInputValue⟩],
            chatInputValue := "" }
      ∧ (App.sendSidekickAnswer (Except.error e) s).err = some e) := by
  refine ⟨fun s => ⟨rfl, rfl⟩, ?_, ?_, ?_, ?_, ?_, ?_⟩
  · intro result rNext rCards rStats s
    unfold App.submitResult
    by_cases h : s.reviewQCardId.getD 0 = 0 <;> simp [h]
  · intro result rCards rStats s
    unfold App.submitResult
    by_cases h : s.reviewQCardId.getD 0 = 0 <;>
      simp [h, Outcome.andThen, App.loadNext]
  · intro result oc rStats s id hid hnz
    have h1 : s.reviewQCardId.getD 0 = id := by rw [hid]; rfl
    simp only [App.submitResult, h1, if_neg hnz]
    rcases oc with _ | c <;>
      simp [Outcome.andThen, App.loadNext, App.refreshCards]
  · intro result oc cards s id hid hnz
    have h1 : s.reviewQCardId.getD 0 = id := by rw [hid]; rfl
    simp only [App.submitResult, h1, if_neg hnz]
    rcases oc with _ | c <;>
      simp [Outcome.andThen, App.loadNext, App.refreshCards, App.refreshStats]
  · intro s
    constructor
    · unfold App.startSidekick
      by_cases h : jsTrim s.sidekickTopicValue = "" <;> simp [h]
    · intro h
      unfold App.startSidekick
      simp [h]
  · intro s sid h hne
    unfold App.sendSidekickAnswer
    rw [h]
    simp [hne]

/-- Witness for api_error_state: loadNext error at the baseline state,
and the reply error at the active state keeps exactly the pre-call
transcript append and cleared input. -/
theorem api_error_state_w :
    (App.loadNext (Except.error "boom") st0).dom = st0
  ∧ (stLoaded.reviewQCardId = some 42 ∧ (42 : Nat) ≠ 0)
  ∧ (App.submitResult "hard" (Except.ok ()) (Except.ok none) (Except.error "boom")
        (Except.ok ⟨0, ⟨0, 0, 0, 0⟩⟩) stLoaded).dom
      = (App.loadNext (Except.ok none) stLoaded).dom
  ∧ (App.submitResult "hard" (Except.ok ()) (Except.ok none) (Except.ok [])
        (Except.error "boom") stLoaded).dom
      = (App.refreshCards (Except.ok []) (App.loadNext (Except.ok none) stLoaded).dom).dom
  ∧ jsTrim stTopic.sidekickTopicValue ≠ ""
  ∧ (App.startSidekick (Except.error "boom") stTopic).err = some "boom"
  ∧ (stActive2.socSession = some "sess9" ∧ jsTrim stActive2.chatInputValue ≠ "")
  ∧ (App.sendSidekickAnswer (Except.error "boom") stActive2).dom
      = { stActive2 with
          chatBox := stActive2.chatBox ++ [⟨Speaker.you, jsTrim stActive2.chatInputValue⟩],
          chatInputValue := "" } :=
  ⟨((api_error_state "boom").1 st0).1,
   ⟨rfl, by decide⟩,
   (api_error_state "boom").2.2.2.1 "hard" none (Except.ok ⟨0, ⟨0, 0, 0, 0⟩⟩)
     stLoaded 42 rfl (by decide),
   (api_error_state "boom").2.2.2.2.1 "hard" none []
     stLoaded 42 rfl (by decide),
   by decide,
   ((api_error_state "boom").2.2.2.2.2.1 stTopic).2 (by decide),
   ⟨rfl, by decide⟩,
   ((api_error_state "boom").2.2.2.2.2.2 stActive2 "sess9" rfl (by decide)).1⟩

/-! Behavioural comparison of the two source copies. -/

/-- Base-independent observation of an outcome: the resulting state, the
dispatched requests with the base URL stripped to (path, method, body),
and the propagated error. -/
def obs (o : Outcome) : St × List (String × String × Option ReqBody) × Option String :=
  (o.dom, o.requests.map fun q => (q.path, q.method, q.body), o.err)

theorem obs_loadNext_eq (rN : Except String (Option Card)) (s : St) :
    obs (App.loadNext rN s) = obs (Part000.loadNext rN s) := by
  rcases rN with e | (_ | c) <;> rfl

theorem obs_refreshCards_eq (rC : Except String (List Card)) (s : St) :
    obs (App.refreshCards rC s) = obs (Part000.refreshCards rC s) := by
  rcases rC with e | cards <;> rfl

theorem obs_refreshStats_eq (rS : Except String Stats) (s : St) :
    obs (App.refreshStats rS s) = obs (Part000.refreshStats rS s) := by
  rcases rS with e | stats <;> rfl

theorem obs_submitResult_eq (result : String) (rSub : Except String Unit)
    (rN : Except String (Option Card)) (rC : Except String (List Card))
    (rS : Except String Stats) (s : St) :
    obs (App.submitResult result rSub rN rC rS s)
      = obs (Part000.submitResult result rSub rN rC rS s) := by
  unfold App.submitResult Part000.submitResult
  by_cases h : s.reviewQCardId.getD 0 = 0
  · simp [h]
  · simp only [if_neg h]
    rcases rSub with e | u
    · rfl
    · rcases rN with e2 | (_ | c) <;> rcases rC with e3 | cards <;>
        rcases rS with e4 | stats <;> rfl

theorem obs_refreshDecks_eq (rD : Except String (List Deck))
    (rC : Except String (List Card)) (rS : Except String Stats) (s : St) :
    obs (App.refreshDecks rD rC rS s) = obs (Part000.refreshDecks rD rC rS s) := by
  rcases rD with e | decks
  · rfl
  · by_cases hd : decks.isEmpty = true
    · simp only [App.refreshDecks, Part000.refreshDecks, hd, if_true]
      rfl
    · simp only [App.refreshDecks, Part000.refreshDecks, hd, if_false]
      rcases rC with e3 | cards <;> rcases rS with e4 | stats <;> rfl

theorem obs_createDeck_eq (rCr : Except String Unit) (rD : Except String (List Deck))
    (rC : Except String (List Card)) (rS : Except String Stats) (s : St) :
    obs (App.createDeck rCr rD rC rS s) = obs (Part000.createDeck rCr rD rC rS s) := by
  unfold App.createDeck Part000.createDeck
  by_cases h : jsTrim s.deckNameValue = ""
  · simp [h]
  · simp only [if_neg h]
    rcases rCr with e | u
    · rfl
    · rcases rD with e2 | decks
      · rfl
      · by_cases hd : decks.isEmpty = true
        · simp only [Outcome.spawn, App.refreshDecks, Part000.refreshDecks, hd, if_true]
          rfl
        · simp only [Outcome.spawn, App.refreshDecks, Part000.refreshDecks, hd, if_false]
          rcases rC with e3 | cards <;> rcases rS with e4 | stats <;> rfl

theorem obs_addCard_eq (rA : Except String Unit) (rC : Except String (List Card))
    (rS : Except String Stats) (s : St) :
    obs (App.addCard rA rC rS s) = obs (Part000.addCard rA rC rS s) := by
  unfold App.addCard Part000.addCard
  by_cases h : s.deckSelectValue = 0 ∨ jsTrim s.questionValue = "" ∨ jsTrim s.answerValue = ""
  · simp [h]
  · simp only [if_neg h]
    rcases rA with e | u
    · rfl
    · rcases rC with e3 | cards <;> rcases rS with e4 | stats <;> rfl

theorem obs_ingestPdf_eq (rI : Except String (List QA)) (s : St) :
    obs (App.ingestPdf rI s) = obs (Part000.ingestPdf rI s) := by
  rcases hpf : s.pdfFile with _ | f
  · simp only [App.ingestPdf, Part000.ingestPdf, hpf]
  · simp only [App.ingestPdf, Part000.ingestPdf, hpf]
    rcases rI with e | data <;> rfl

/-- C10: every function defined in src/unnamed/part_000 (api,
refreshDecks, createDeck, addCard, loadNext, submitResult, showAnswer,
ingestPdf, refreshCards, refreshStats) is behaviourally equal to its
namesake in src/frontend/app.js modulo the API base-URL constant: for
every input and every backend response the two perform the same state
changes, surface the same errors, and dispatch the same requests to the
same paths relative to their base. -/
theorem part000_behaviourally_equal :
    (∀ (α : Type) (resp : FetchResponse α), App.api resp = Part000.api resp)
  ∧ (∀ rD rC rS s, obs (App.refreshDecks rD rC rS s) = obs (Part000.refreshDecks rD rC rS s))
  ∧ (∀ rCr rD rC rS s,
      obs (App.createDeck rCr rD rC rS s) = obs (Part000.createDeck rCr rD rC rS s))
  ∧ (∀ rA rC rS s, obs (App.addCard rA rC rS s) = obs (Part000.addCard rA rC rS s))
  ∧ (∀ rN s, obs (App.loadNext rN s) = obs (Part000.loadNext rN s))
  ∧ (∀ result rSub rN rC rS s,
      obs (App.submitResult result rSub rN rC rS s)
        = obs (Part000.submitResult result rSub rN rC rS s))
  ∧ (∀ s, App.showAnswer s = Part000.showAnswer s)
  ∧ (∀ rI s, obs (App.ingestPdf rI s) = obs (Part000.ingestPdf rI s))
  ∧ (∀ rC s, obs (App.refreshCards rC s) = obs (Part000.refreshCards rC s))
  ∧ (∀ rS s, obs (App.refreshStats rS s) = obs (Part000.refreshStats rS s)) :=
  ⟨fun _ _ => rfl, obs_refreshDecks_eq, obs_createDeck_eq, obs_addCard_eq,
   obs_loadNext_eq, obs_submitResult_eq, fun _ => rfl, obs_ingestPdf_eq,
   obs_refreshCards_eq, obs_refreshStats_eq⟩

end StudyTool
